import Mathlib

/-!
Verification of the KanMind kanban backend's authorization and data model.

The embedding follows the source layout:
* `kanban_app/models.py` — `Board`, `Task`, `TaskComment` records; users are
  represented by their primary-key ids (`Nat`).  A `DB` value is the persistent
  store: the three tables as lists.
* `kanban_app/api/permissions.py` — the permission predicates, one Lean
  function per `has_permission` / `has_object_permission` body.
* `kanban_app/api/serializers.py` — validation and write logic of the
  serializers (`BoardUpdateInputSerializer.update`, `TaskSerializer.validate`,
  `TaskUpdateSerializer.validate`, …).
* `kanban_app/api/views.py` — endpoint pipelines combining permission checks,
  validation and store writes.  Handlers that can fail return the unchanged
  `DB` together with `some` error, mirroring Django's single-transaction,
  no-partial-write behaviour.

Python truthiness is modelled where the source relies on it: in
`IsBoardMemberForTaskCreate.has_permission`, `if not board_id` is true both
for an absent field (`none`) and for the integer `0`.
-/

namespace KanMind

/-- Status choices from `Task.STATUS_CHOICES` in `kanban_app/models.py`. -/
def statusChoices : List String := ["to-do", "in-progress", "review", "done"]

/-- Priority choices from `Task.PRIORITY_CHOICES` in `kanban_app/models.py`. -/
def priorityChoices : List String := ["low", "medium", "high"]

/-- Model of `Board` model: title, owner (FK to User), members (M2M to User).
Users are identified by their pk. -/
structure Board where
  id : Nat
  title : String
  owner : Nat
  members : List Nat
deriving Repr, DecidableEq

/-- Model of `Task` model: board FK, optional creator/assignee/reviewer FKs,
status and priority strings. -/
structure Task where
  id : Nat
  board : Nat
  title : String
  creator : Option Nat
  description : String
  status : String
  priority : String
  assignee : Option Nat
  reviewer : Option Nat
deriving Repr, DecidableEq

/-- Model of `TaskComment` model: task FK, author FK, content, creation stamp. -/
structure TaskComment where
  id : Nat
  task : Nat
  author : Nat
  content : String
  created_at : Nat
deriving Repr, DecidableEq

/-- The persistent store: the three tables. -/
structure DB where
  boards : List Board
  tasks : List Task
  comments : List TaskComment
deriving Repr, DecidableEq

/-- Error taxonomy of the API layer: 403 Forbidden, 404 NotFound,
400 ValidationError. -/
inductive ApiError where
  | forbidden
  | notFound
  | validation (msg : String)
deriving Repr, DecidableEq

/-- Outcome of a `has_permission` check that may raise `NotFound`:
`granted` (returns True), `denied` (returns False, surfaced as 403),
`notFound` (raises NotFound, surfaced as 404). -/
inductive PermOutcome where
  | granted
  | denied
  | notFound
deriving Repr, DecidableEq

/-- Model of `Board.objects.get(pk=bid)` on the boards table. -/
def findBoard (boards : List Board) (bid : Nat) : Option Board :=
  boards.find? (fun b => b.id == bid)

/-- Model of `IsBoardOwner.has_object_permission`:
`return request.user == obj.owner`. -/
def isBoardOwner (user : Nat) (b : Board) : Bool :=
  user == b.owner

/-- Model of `IsBoardMemberOrOwner.has_object_permission`:
`return request.user == obj.owner or request.user in obj.members.all()`. -/
def isBoardMemberOrOwner (user : Nat) (b : Board) : Bool :=
  user == b.owner || b.members.contains user

/-- Model of `IsBoardMemberForTaskCreate.has_permission`:
reads `request.data.get('board')`; `if not board_id: return False`
(true for an absent field and for the falsy integer 0); a lookup failure
raises `NotFound`; otherwise membership/ownership decides. -/
def isBoardMemberForTaskCreate (boards : List Board) (user : Nat)
    (boardRef : Option Nat) : PermOutcome :=
  match boardRef with
  | none => .denied
  | some bid =>
    if bid == 0 then .denied
    else
      match findBoard boards bid with
      | none => .notFound
      | some board =>
        if user == board.owner || board.members.contains user then .granted
        else .denied

/-- Model of `IsTaskBoardMemberOrOwner.has_object_permission` (the task's board is
passed already dereferenced, as `obj.board` always resolves for a saved row):
`return request.user == board.owner or request.user in board.members.all()`. -/
def isTaskBoardMemberOrOwner (user : Nat) (board : Board) : Bool :=
  user == board.owner || board.members.contains user

/-- Model of `IsCommentAuthor.has_object_permission`:
`return obj.author == request.user`. -/
def isCommentAuthor (user : Nat) (c : TaskComment) : Bool :=
  c.author == user

/-- Model of `IsTaskCreatorOrBoardOwner.has_object_permission`:
`(hasattr(obj, "creator") and obj.creator == request.user) or
(board.owner == request.user)`.  `hasattr` is always true for the model
field; a `None` creator compares unequal to any authenticated user, which
`(t.creator == some user)` reproduces. -/
def isTaskCreatorOrBoardOwner (user : Nat) (t : Task) (board : Board) : Bool :=
  (t.creator == some user) || (board.owner == user)

/-- Model of `TaskAssignedToMeListView.get_queryset`:
`Task.objects.filter(assignee=self.request.user)`. -/
def assignedToMe (db : DB) (user : Nat) : List Task :=
  db.tasks.filter (fun t => t.assignee == some user)

/-- Model of `TaskReviewingListView.get_queryset`:
`Task.objects.filter(reviewer=self.request.user)`. -/
def reviewing (db : DB) (user : Nat) : List Task :=
  db.tasks.filter (fun t => t.reviewer == some user)

/-- Model of `TaskListCreateView` handling a GET (list) request.  The view's
`permission_classes` include `IsBoardMemberForTaskCreate` for every method;
a list request carries no body, so `request.data.get('board')` is `None`.
On success the queryset is optionally filtered by the `?board` query param. -/
def listTasks (db : DB) (user : Nat) (boardFilter : Option Nat) :
    Except ApiError (List Task) :=
  match isBoardMemberForTaskCreate db.boards user none with
  | .granted =>
    .ok (match boardFilter with
         | some bid => db.tasks.filter (fun t => t.board == bid)
         | none => db.tasks)
  | .denied => .error .forbidden
  | .notFound => .error .notFound

/-- Model of `BoardUpdateInputSerializer.update`:
`members = validated_data.pop('members', None)`;
`if 'title' in validated_data: instance.title = validated_data['title']`;
`if members is not None: instance.members.set(members)`.
`owner` is never touched. -/
def boardUpdate (b : Board) (title : Option String)
    (members : Option (List Nat)) : Board :=
  { b with
    title := match title with | some t => t | none => b.title,
    members := match members with | some ms => ms | none => b.members }

/-- Cascade of `board.delete()`: `Task.board` and `TaskComment.task` both
carry `on_delete=CASCADE`, so deleting a board removes its tasks and the
comments of those tasks (`kanban_app/models.py`). -/
def deleteBoard (db : DB) (bid : Nat) : DB :=
  { boards := db.boards.filter (fun b => b.id != bid),
    tasks := db.tasks.filter (fun t => t.board != bid),
    comments := db.comments.filter (fun c =>
      !(db.tasks.any (fun t => t.id == c.task && t.board == bid))) }

/-- Model of `BoardDetailView` handling DELETE: `get_permissions` returns
`[IsAuthenticated(), IsBoardOwner()]`; `get_object` raises 404 on a missing
board and runs `check_object_permissions`; success performs the cascade. -/
def destroyBoard (db : DB) (user bid : Nat) : Except ApiError DB :=
  match findBoard db.boards bid with
  | none => .error .notFound
  | some b =>
    if isBoardOwner user b then .ok (deleteBoard db bid)
    else .error .forbidden

/-- Model of `TaskSerializer.validate_status`. -/
def validStatus (s : String) : Bool := statusChoices.contains s

/-- Model of `TaskSerializer.validate_priority`. -/
def validPriority (p : String) : Bool := priorityChoices.contains p

/-- POST body for task creation.  `board` is kept raw (`Option Nat`) because
`IsBoardMemberForTaskCreate` reads it straight from `request.data` before
the serializer runs. -/
structure TaskCreateInput where
  board : Option Nat
  title : String
  description : String
  status : String
  priority : String
  assignee : Option Nat
  reviewer : Option Nat
deriving Repr, DecidableEq

/-- Model of `TaskSerializer` validation on create: field validators for status and
priority, then `validate`, which rejects a truthy assignee/reviewer that is
neither in `board.members.all()` nor equal to `board.owner`. -/
def taskCreateValidate (board : Board) (input : TaskCreateInput) :
    Option ApiError :=
  if validStatus input.status = false then
    some (.validation "Invalid status.")
  else if validPriority input.priority = false then
    some (.validation "Invalid priority.")
  else if input.assignee.any
      (fun a => !(board.members.contains a) && !(a == board.owner)) then
    some (.validation "Assignee must be a board member or owner")
  else if input.reviewer.any
      (fun r => !(board.members.contains r) && !(r == board.owner)) then
    some (.validation "Reviewer must be a board member or owner")
  else none

/-- Model of `TaskListCreateView` handling POST: `IsBoardMemberForTaskCreate` runs
first (404 on a missing board, 403 on a non-member); then the serializer
requires a resolvable `board` field and validates; `perform_create` saves
with `creator=request.user`.  On any error the store is unchanged. -/
def createTask (db : DB) (user : Nat) (input : TaskCreateInput)
    (newId : Nat) : DB × Option ApiError :=
  match isBoardMemberForTaskCreate db.boards user input.board with
  | .notFound => (db, some .notFound)
  | .denied => (db, some .forbidden)
  | .granted =>
    match input.board with
    | none => (db, some (.validation "board is required"))
    | some bid =>
      match findBoard db.boards bid with
      | none => (db, some (.validation "invalid board pk"))
      | some board =>
        match taskCreateValidate board input with
        | some e => (db, some e)
        | none =>
          ({ db with tasks := db.tasks ++
              [{ id := newId, board := bid, title := input.title,
                 creator := some user, description := input.description,
                 status := input.status, priority := input.priority,
                 assignee := input.assignee, reviewer := input.reviewer }] },
           none)

/-- PATCH body for task update.  `boardMentioned` records whether the key
`'board'` occurs in `initial_data` (the serializer rejects on the mere
presence of the key, whatever its value).  Nullable FK fields distinguish
"absent" (`none`) from "supplied null" (`some none`). -/
structure TaskUpdateInput where
  boardMentioned : Bool
  title : Option String
  description : Option String
  status : Option String
  priority : Option String
  assignee : Option (Option Nat)
  reviewer : Option (Option Nat)
deriving Repr, DecidableEq

/-- Model of `TaskUpdateSerializer` validation and application: field validators for
status/priority, then `validate` — `if 'board' in self.initial_data` rejects
unconditionally, then the assignee/reviewer membership checks against the
instance's (immutable) board — then the model update on success. -/
def updateTask (board : Board) (t : Task) (input : TaskUpdateInput) :
    Except ApiError Task :=
  if input.status.any (fun s => validStatus s = false) then
    .error (.validation "Invalid status choice.")
  else if input.priority.any (fun p => validPriority p = false) then
    .error (.validation "Invalid priority choice.")
  else if input.boardMentioned then
    .error (.validation "Changing the board is not allowed.")
  else if input.assignee.join.any
      (fun a => !(board.members.contains a) && !(a == board.owner)) then
    .error (.validation "Assignee must be a member or owner of the board.")
  else if input.reviewer.join.any
      (fun r => !(board.members.contains r) && !(r == board.owner)) then
    .error (.validation "Reviewer must be a member or owner of the board.")
  else
    .ok { t with
      title := input.title.getD t.title,
      description := input.description.getD t.description,
      status := input.status.getD t.status,
      priority := input.priority.getD t.priority,
      assignee := input.assignee.getD t.assignee,
      reviewer := input.reviewer.getD t.reviewer }

/-- Model of `TaskDetailView` handling PATCH: a missing task pk raises 404 (in
`IsTaskBoardMemberOrOwner.has_permission`), the board-membership check
yields 403, then `TaskUpdateSerializer` validates and the row is updated.
On any error the store is unchanged. -/
def patchTask (db : DB) (user tid : Nat) (input : TaskUpdateInput) :
    DB × Option ApiError :=
  match db.tasks.find? (fun x => x.id == tid) with
  | none => (db, some .notFound)
  | some t =>
    match findBoard db.boards t.board with
    | none => (db, some .notFound)
    | some board =>
      if isTaskBoardMemberOrOwner user board then
        match updateTask board t input with
        | .error e => (db, some e)
        | .ok t2 =>
          ({ db with tasks :=
              db.tasks.map (fun x => if x.id == tid then t2 else x) }, none)
      else (db, some .forbidden)

/-- Model of `TaskCommentListCreateView.get_queryset`: the task is fetched by the
`task_id` URL kwarg — 404 when absent — then `check_object_permissions`
runs `IsTaskBoardMemberOrOwner`, and the task's comments are returned
ordered by `created_at` (the store keeps them in creation order). -/
def listComments (db : DB) (user tid : Nat) :
    Except ApiError (List TaskComment) :=
  match db.tasks.find? (fun t => t.id == tid) with
  | none => .error .notFound
  | some task =>
    match findBoard db.boards task.board with
    | none => .error .notFound
    | some board =>
      if isTaskBoardMemberOrOwner user board then
        .ok (db.comments.filter (fun c => c.task == tid))
      else .error .forbidden

/-- Model of `TaskCommentListCreateView` handling POST: the generic create
flow runs `serializer.is_valid(raise_exception=True)` first — the required
`content` field rejects a blank value with 400 — and only then
`perform_create` resolves the task (404 when absent), checks
`IsTaskBoardMemberOrOwner`, and saves with `author=request.user`. -/
def createComment (db : DB) (user tid : Nat) (content : String)
    (newId time : Nat) : DB × Option ApiError :=
  if content = "" then (db, some (.validation "This field may not be blank."))
  else match db.tasks.find? (fun t => t.id == tid) with
  | none => (db, some .notFound)
  | some task =>
    match findBoard db.boards task.board with
    | none => (db, some .notFound)
    | some board =>
      if isTaskBoardMemberOrOwner user board then
        ({ db with comments := db.comments ++
            [{ id := newId, task := tid, author := user,
               content := content, created_at := time }] }, none)
      else (db, some .forbidden)

/-- Model of `TaskCommentDestroyView.get_object`: the comment is fetched by
`(id=comment_id, task__id=task_id)` — 404 when absent — then
`check_object_permissions` runs `IsCommentAuthor`; success deletes the row. -/
def deleteComment (db : DB) (user tid cid : Nat) : DB × Option ApiError :=
  match db.comments.find? (fun c => c.id == cid && c.task == tid) with
  | none => (db, some .notFound)
  | some c =>
    if isCommentAuthor user c then
      ({ db with comments := db.comments.filter (fun x => x.id != cid) },
       none)
    else (db, some .forbidden)

/-- Observable used in statements: the outcome is a 400 validation error. -/
def isValidationError : Option ApiError → Bool
  | some (.validation _) => true
  | _ => false

/-- Claim C8: the assigned-to-me listing for user U contains exactly the
tasks whose assignee equals U; tasks with a different or null assignee —
in particular tasks where U is only the reviewer — are excluded. -/
theorem assignedToMe_exact (db : DB) (u : Nat) (t : Task) :
    t ∈ assignedToMe db u ↔ t ∈ db.tasks ∧ t.assignee = some u := by
  simp [assignedToMe, List.mem_filter]

/-- Claim C9: every list (GET) request to the task-list endpoint is denied
for every authenticated actor: the guarding permission reads the `board`
field from the request body, absent on a list request, and returns deny,
so the board-filtered task listing is unreachable. -/
theorem listTasks_unreachable (db : DB) (u : Nat) (bf : Option Nat) :
    listTasks db u bf = .error ApiError.forbidden ∧
    isBoardMemberForTaskCreate db.boards u none = PermOutcome.denied := by
  constructor <;> rfl

/-- Claim C1: an actor equal to a board's owner is granted by every
authorization predicate over that board (read/update board, delete board,
create task, read/update task, create/read comments — the latter reuse
`isTaskBoardMemberOrOwner`), whether or not the owner is in the member
list; replacing the member set by any list, in particular one without the
owner, never reduces the owner's rights. -/
theorem owner_always_authorized (b : Board) (u : Nat) (boards : List Board)
    (ms : List Nat) (hu : u = b.owner) :
    isBoardMemberOrOwner u b = true ∧
    isBoardOwner u b = true ∧
    isTaskBoardMemberOrOwner u b = true ∧
    (findBoard boards b.id = some b → b.id ≠ 0 →
      isBoardMemberForTaskCreate boards u (some b.id) = PermOutcome.granted) ∧
    isBoardMemberOrOwner u (boardUpdate b none (some ms)) = true ∧
    isBoardOwner u (boardUpdate b none (some ms)) = true ∧
    isTaskBoardMemberOrOwner u (boardUpdate b none (some ms)) = true := by
  subst hu
  refine ⟨?_, ?_, ?_, ?_, ?_, ?_, ?_⟩
  · simp [isBoardMemberOrOwner]
  · simp [isBoardOwner]
  · simp [isTaskBoardMemberOrOwner]
  · intro hf h0
    simp [isBoardMemberForTaskCreate, hf, h0]
  · simp [isBoardMemberOrOwner, boardUpdate]
  · simp [isBoardOwner, boardUpdate]
  · simp [isTaskBoardMemberOrOwner, boardUpdate]

/-- Witness for C1: a board whose owner 7 is absent from the member list;
task creation and board deletion are still granted to 7. -/
theorem owner_always_authorized_witness :
    isBoardMemberForTaskCreate [⟨1, "b", 7, []⟩] 7 (some 1)
        = PermOutcome.granted ∧
    isBoardOwner 7 (boardUpdate ⟨1, "b", 7, []⟩ none (some [])) = true :=
  ⟨(owner_always_authorized ⟨1, "b", 7, []⟩ 7 [⟨1, "b", 7, []⟩] []
      rfl).2.2.2.1 rfl (by decide),
   (owner_always_authorized ⟨1, "b", 7, []⟩ 7 [⟨1, "b", 7, []⟩] []
      rfl).2.2.2.2.2.1⟩

/-- Claim C2: for an existing board, DELETE succeeds exactly when the actor
is its owner (any other actor, member or not, receives Forbidden), and a
successful delete leaves no task of that board and no comment attached to a
task of that board. -/
theorem destroyBoard_owner_only_and_cascade (db : DB) (u bid : Nat)
    (b : Board) (hb : findBoard db.boards bid = some b) :
    ((∃ db2, destroyBoard db u bid = Except.ok db2) ↔ u = b.owner) ∧
    (u ≠ b.owner → destroyBoard db u bid = Except.error ApiError.forbidden) ∧
    (∀ db2, destroyBoard db u bid = Except.ok db2 →
      (∀ t ∈ db2.tasks, t.board ≠ bid) ∧
      (∀ c ∈ db2.comments, ∀ t ∈ db.tasks, t.id = c.task → t.board ≠ bid)) := by
  have hcasc :
      (∀ t ∈ (deleteBoard db bid).tasks, t.board ≠ bid) ∧
      (∀ c ∈ (deleteBoard db bid).comments, ∀ t ∈ db.tasks,
        t.id = c.task → t.board ≠ bid) := by
    constructor
    · intro t ht
      have := (List.mem_filter.mp ht).2
      simpa using this
    · intro c hc t ht hid hbd
      have hfc := (List.mem_filter.mp hc).2
      simp only [Bool.not_eq_true', List.any_eq_false] at hfc
      have := hfc t ht
      simp [hid, hbd] at this
  refine ⟨⟨?_, ?_⟩, ?_, ?_⟩
  · rintro ⟨db2, hdb2⟩
    by_contra hne
    simp [destroyBoard, hb, isBoardOwner, hne] at hdb2
  · intro h
    exact ⟨deleteBoard db bid, by simp [destroyBoard, hb, isBoardOwner, h]⟩
  · intro h
    simp [destroyBoard, hb, isBoardOwner, h]
  · intro db2 hdb2
    by_cases h : u = b.owner
    · simp [destroyBoard, hb, isBoardOwner, h] at hdb2
      subst hdb2
      exact hcasc
    · simp [destroyBoard, hb, isBoardOwner, h] at hdb2

/-- Witness for C2: a one-board store with a task and a comment; owner 7
deletes board 1, a non-owner member 8 is forbidden, and the cascade clears
the task and the comment. -/
theorem destroyBoard_owner_only_and_cascade_witness :
    (∃ db2, destroyBoard
        ⟨[⟨1, "b", 7, [8]⟩], [⟨4, 1, "t", some 8, "", "to-do", "medium",
          none, none⟩], [⟨9, 4, 8, "hi", 0⟩]⟩ 7 1 = Except.ok db2) ∧
    destroyBoard
        ⟨[⟨1, "b", 7, [8]⟩], [⟨4, 1, "t", some 8, "", "to-do", "medium",
          none, none⟩], [⟨9, 4, 8, "hi", 0⟩]⟩ 8 1
      = Except.error ApiError.forbidden := by
  constructor
  · exact (destroyBoard_owner_only_and_cascade
      ⟨[⟨1, "b", 7, [8]⟩], [⟨4, 1, "t", some 8, "", "to-do", "medium",
        none, none⟩], [⟨9, 4, 8, "hi", 0⟩]⟩ 7 1 ⟨1, "b", 7, [8]⟩
      rfl).1.mpr rfl
  · exact (destroyBoard_owner_only_and_cascade
      ⟨[⟨1, "b", 7, [8]⟩], [⟨4, 1, "t", some 8, "", "to-do", "medium",
        none, none⟩], [⟨9, 4, 8, "hi", 0⟩]⟩ 8 1 ⟨1, "b", 7, [8]⟩
      rfl).2.1 (by decide)

/-- Claim C7: a board update replaces the whole member set when a member
list is supplied; an absent member list leaves the members unchanged; an
absent title leaves the title unchanged; the owner is never changed. -/
theorem boardUpdate_semantics (b : Board) (ms : List Nat)
    (mq : Option (List Nat)) (tq : Option String) :
    (boardUpdate b tq (some ms)).members = ms ∧
    (boardUpdate b tq none).members = b.members ∧
    (boardUpdate b none mq).title = b.title ∧
    (boardUpdate b tq mq).owner = b.owner := by
  cases mq <;> cases tq <;> simp [boardUpdate]

/-- Helper: whenever the update input mentions the board key, the update
serializer rejects with some validation error, whatever the other fields. -/
theorem updateTask_boardMentioned (board : Board) (t : Task)
    (input : TaskUpdateInput) (hb : input.boardMentioned = true) :
    ∃ msg, updateTask board t input = Except.error (ApiError.validation msg) := by
  unfold updateTask
  split_ifs <;> exact ⟨_, rfl⟩

/-- Claim C3: for an existing task and an actor with update rights, a PATCH
whose input mentions the board field is rejected with a validation error —
even for the board owner and whatever value was supplied — and the store is
unchanged. -/
theorem patchTask_board_rejected (db : DB) (u tid : Nat) (t : Task)
    (board : Board) (input : TaskUpdateInput)
    (ht : db.tasks.find? (fun x => x.id == tid) = some t)
    (hbd : findBoard db.boards t.board = some board)
    (hperm : isTaskBoardMemberOrOwner u board = true)
    (hb : input.boardMentioned = true) :
    (patchTask db u tid input).1 = db ∧
    isValidationError (patchTask db u tid input).2 = true := by
  obtain ⟨msg, hmsg⟩ := updateTask_boardMentioned board t input hb
  simp [patchTask, ht, hbd, hperm, hmsg, isValidationError]

/-- Witness for C3: the board owner 7 patches task 4 with a body mentioning
board; the update is rejected and the tables are untouched. -/
theorem patchTask_board_rejected_witness :
    (patchTask
        ⟨[⟨1, "b", 7, [8]⟩], [⟨4, 1, "t", some 8, "", "to-do", "medium",
          none, none⟩], []⟩ 7 4
        ⟨true, none, none, none, none, none, none⟩).1
      = ⟨[⟨1, "b", 7, [8]⟩], [⟨4, 1, "t", some 8, "", "to-do", "medium",
          none, none⟩], []⟩ ∧
    isValidationError (patchTask
        ⟨[⟨1, "b", 7, [8]⟩], [⟨4, 1, "t", some 8, "", "to-do", "medium",
          none, none⟩], []⟩ 7 4
        ⟨true, none, none, none, none, none, none⟩).2 = true :=
  patchTask_board_rejected
    ⟨[⟨1, "b", 7, [8]⟩], [⟨4, 1, "t", some 8, "", "to-do", "medium",
      none, none⟩], []⟩ 7 4
    ⟨4, 1, "t", some 8, "", "to-do", "medium", none, none⟩ ⟨1, "b", 7, [8]⟩
    ⟨true, none, none, none, none, none, none⟩ rfl rfl (by decide) rfl

/-- Helper: the create serializer rejects with some validation error when a
supplied assignee or reviewer is neither a member nor the owner. -/
theorem taskCreateValidate_bad_member (board : Board) (input : TaskCreateInput)
    (h : (∃ a, input.assignee = some a ∧ a ∉ board.members ∧
            a ≠ board.owner) ∨
         (∃ r, input.reviewer = some r ∧ r ∉ board.members ∧
            r ≠ board.owner)) :
    ∃ msg, taskCreateValidate board input = some (ApiError.validation msg) := by
  unfold taskCreateValidate
  split_ifs with h1 h2 h3 h4
  · exact ⟨_, rfl⟩
  · exact ⟨_, rfl⟩
  · exact ⟨_, rfl⟩
  · exact ⟨_, rfl⟩
  · rcases h with ⟨a, ha, hm, ho⟩ | ⟨r, hr, hm, ho⟩
    · exact absurd (by simp [Option.any, ha, hm, ho]) h3
    · exact absurd (by simp [Option.any, hr, hm, ho]) h4

/-- Helper: the update serializer rejects with some validation error when a
supplied non-null assignee or reviewer is neither a member nor the owner. -/
theorem updateTask_bad_member (board : Board) (t : Task)
    (input : TaskUpdateInput)
    (h : (∃ a, input.assignee = some (some a) ∧ a ∉ board.members ∧
            a ≠ board.owner) ∨
         (∃ r, input.reviewer = some (some r) ∧ r ∉ board.members ∧
            r ≠ board.owner)) :
    ∃ msg, updateTask board t input = Except.error (ApiError.validation msg) := by
  unfold updateTask
  split_ifs with h1 h2 h3 h4 h5
  · exact ⟨_, rfl⟩
  · exact ⟨_, rfl⟩
  · exact ⟨_, rfl⟩
  · exact ⟨_, rfl⟩
  · exact ⟨_, rfl⟩
  · rcases h with ⟨a, ha, hm, ho⟩ | ⟨r, hr, hm, ho⟩
    · exact absurd (by simp [Option.any, Option.join, ha, hm, ho]) h4
    · exact absurd (by simp [Option.any, Option.join, hr, hm, ho]) h5

/-- Claim C4: creating or updating a task with a non-null assignee or
reviewer who is neither the board owner nor a board member fails with a
validation error; the failed create adds no task and the failed update
changes no field — the store is returned unchanged. -/
theorem invalid_assignee_or_reviewer_rejected
    (db db2 : DB) (u u2 nid bid tid : Nat) (ci : TaskCreateInput)
    (board board2 : Board) (t : Task) (ui : TaskUpdateInput) :
    (ci.board = some bid → bid ≠ 0 → findBoard db.boards bid = some board →
      (u = board.owner ∨ u ∈ board.members) →
      ((∃ a, ci.assignee = some a ∧ a ∉ board.members ∧
          a ≠ board.owner) ∨
       (∃ r, ci.reviewer = some r ∧ r ∉ board.members ∧
          r ≠ board.owner)) →
      (createTask db u ci nid).1 = db ∧
      isValidationError (createTask db u ci nid).2 = true) ∧
    (db2.tasks.find? (fun x => x.id == tid) = some t →
      findBoard db2.boards t.board = some board2 →
      isTaskBoardMemberOrOwner u2 board2 = true →
      ((∃ a, ui.assignee = some (some a) ∧
          a ∉ board2.members ∧ a ≠ board2.owner) ∨
       (∃ r, ui.reviewer = some (some r) ∧
          r ∉ board2.members ∧ r ≠ board2.owner)) →
      (patchTask db2 u2 tid ui).1 = db2 ∧
      isValidationError (patchTask db2 u2 tid ui).2 = true) := by
  constructor
  · intro hab h0 hf hmem hbad
    obtain ⟨msg, hmsg⟩ := taskCreateValidate_bad_member board ci hbad
    have hperm : isBoardMemberForTaskCreate db.boards u (some bid)
        = PermOutcome.granted := by
      rcases hmem with h | h <;>
        simp [isBoardMemberForTaskCreate, h0, hf, h]
    simp [createTask, hab, hperm, hf, hmsg, isValidationError]
  · intro ht hbd hperm hbad
    obtain ⟨msg, hmsg⟩ := updateTask_bad_member board2 t ui hbad
    simp [patchTask, ht, hbd, hperm, hmsg, isValidationError]

/-- Witness for C4: owner 10 creates a task assigning outsider 12 — rejected
with nothing written; member 11 patches task 4 setting assignee 12 —
rejected with nothing written. -/
theorem invalid_assignee_or_reviewer_rejected_witness :
    ((createTask ⟨[⟨1, "b", 10, [11]⟩], [], []⟩ 10
        ⟨some 1, "t", "", "to-do", "medium", some 12, none⟩ 5).1
      = ⟨[⟨1, "b", 10, [11]⟩], [], []⟩ ∧
     isValidationError (createTask ⟨[⟨1, "b", 10, [11]⟩], [], []⟩ 10
        ⟨some 1, "t", "", "to-do", "medium", some 12, none⟩ 5).2 = true) ∧
    ((patchTask ⟨[⟨1, "b", 10, [11]⟩], [⟨4, 1, "t", some 10, "", "to-do",
        "medium", none, none⟩], []⟩ 11 4
        ⟨false, none, none, none, none, some (some 12), none⟩).1
      = ⟨[⟨1, "b", 10, [11]⟩], [⟨4, 1, "t", some 10, "", "to-do",
        "medium", none, none⟩], []⟩ ∧
     isValidationError (patchTask ⟨[⟨1, "b", 10, [11]⟩], [⟨4, 1, "t",
        some 10, "", "to-do", "medium", none, none⟩], []⟩ 11 4
        ⟨false, none, none, none, none, some (some 12), none⟩).2 = true) :=
  ⟨(invalid_assignee_or_reviewer_rejected
      ⟨[⟨1, "b", 10, [11]⟩], [], []⟩
      ⟨[⟨1, "b", 10, [11]⟩], [⟨4, 1, "t", some 10, "", "to-do", "medium",
        none, none⟩], []⟩ 10 11 5 1 4
      ⟨some 1, "t", "", "to-do", "medium", some 12, none⟩
      ⟨1, "b", 10, [11]⟩ ⟨1, "b", 10, [11]⟩
      ⟨4, 1, "t", some 10, "", "to-do", "medium", none, none⟩
      ⟨false, none, none, none, none, some (some 12), none⟩).1
      rfl (by decide) rfl (by decide)
      (Or.inl ⟨12, rfl, by decide, by decide⟩),
   (invalid_assignee_or_reviewer_rejected
      ⟨[⟨1, "b", 10, [11]⟩], [], []⟩
      ⟨[⟨1, "b", 10, [11]⟩], [⟨4, 1, "t", some 10, "", "to-do", "medium",
        none, none⟩], []⟩ 10 11 5 1 4
      ⟨some 1, "t", "", "to-do", "medium", some 12, none⟩
      ⟨1, "b", 10, [11]⟩ ⟨1, "b", 10, [11]⟩
      ⟨4, 1, "t", some 10, "", "to-do", "medium", none, none⟩
      ⟨false, none, none, none, none, some (some 12), none⟩).2
      rfl rfl (by decide)
      (Or.inl ⟨12, rfl, by decide, by decide⟩)⟩

/-- Claim C5 as amended: a task-create whose supplied board id is nonzero
and unresolvable fails with NotFound; a comment-list whose task id is
unresolvable fails with NotFound; a comment-create with a non-blank content
whose task id is unresolvable fails with NotFound — all for every
authenticated actor, and NotFound is distinct from Forbidden.  (A zero —
falsy — board reference is instead denied with Forbidden, and a blank
comment body is rejected with 400 before the task is resolved; see the
counterexample.) -/
theorem missing_parent_not_found (db : DB) (u bid nid nid2 time tid : Nat)
    (ci : TaskCreateInput) (content : String) :
    (ci.board = some bid → bid ≠ 0 → findBoard db.boards bid = none →
      (createTask db u ci nid).2 = some ApiError.notFound ∧
      (createTask db u ci nid).1 = db) ∧
    (db.tasks.find? (fun x => x.id == tid) = none →
      listComments db u tid = Except.error ApiError.notFound) ∧
    (db.tasks.find? (fun x => x.id == tid) = none → content ≠ "" →
      (createComment db u tid content nid2 time).2 = some ApiError.notFound ∧
      (createComment db u tid content nid2 time).1 = db) ∧
    ApiError.notFound ≠ ApiError.forbidden := by
  refine ⟨?_, ?_, ?_, by decide⟩
  · intro hab h0 hf
    have hperm : isBoardMemberForTaskCreate db.boards u (some bid)
        = PermOutcome.notFound := by
      simp [isBoardMemberForTaskCreate, h0, hf]
    simp [createTask, hab, hperm]
  · intro ht
    simp [listComments, ht]
  · intro ht hct
    refine ⟨?_, ?_⟩ <;> simp [createComment, ht, hct]

/-- Witness for C5 (amended): board id 3 does not exist — task creation is
404; task id 9 does not exist — the comment listing is 404. -/
theorem missing_parent_not_found_witness :
    (createTask ⟨[], [], []⟩ 1
        ⟨some 3, "t", "", "to-do", "medium", none, none⟩ 1).2
      = some ApiError.notFound ∧
    listComments ⟨[], [], []⟩ 1 9 = Except.error ApiError.notFound :=
  ⟨((missing_parent_not_found ⟨[], [], []⟩ 1 3 1 1 0 9
      ⟨some 3, "t", "", "to-do", "medium", none, none⟩ "c").1
      rfl (by decide) rfl).1,
   (missing_parent_not_found ⟨[], [], []⟩ 1 3 1 1 0 9
      ⟨some 3, "t", "", "to-do", "medium", none, none⟩ "c").2.1 rfl⟩

/-- Counterexample to claim C5 as stated, at two concrete requests.  First,
with no boards in the store the supplied board reference 0 does not
resolve, yet task creation is denied with Forbidden — the falsy id takes
the `if not board_id: return False` branch of
`IsBoardMemberForTaskCreate.has_permission` — instead of failing with the
claimed NotFound.  Second, a comment-create with blank content on the
unresolvable task id 9 fails with the field's 400 validation error — the
serializer runs before `perform_create` resolves the task — not with the
claimed NotFound. -/
theorem missing_parent_claim_fails :
    (findBoard (DB.boards ⟨[], [], []⟩) 0 = none ∧
     (createTask ⟨[], [], []⟩ 1
        ⟨some 0, "t", "", "to-do", "medium", none, none⟩ 1).2
       = some ApiError.forbidden) ∧
    ((DB.tasks ⟨[], [], []⟩).find? (fun x => x.id == 9) = none ∧
     (createComment ⟨[], [], []⟩ 1 9 "" 1 0).2
       = some (ApiError.validation "This field may not be blank.")) ∧
    some ApiError.forbidden ≠ some ApiError.notFound := by
  refine ⟨⟨rfl, rfl⟩, ⟨rfl, rfl⟩, by decide⟩

/-- Claim C6: a comment that resolves under its task is deleted exactly when
the actor is its author; every other actor — board owner and members
included — receives Forbidden. -/
theorem deleteComment_author_only (db : DB) (u tid cid : Nat)
    (c : TaskComment)
    (hc : db.comments.find? (fun x => x.id == cid && x.task == tid) = some c) :
    ((deleteComment db u tid cid).2 = none ↔ u = c.author) ∧
    (u ≠ c.author →
      (deleteComment db u tid cid).2 = some ApiError.forbidden) := by
  by_cases h : c.author = u
  · refine ⟨⟨fun _ => h.symm, fun _ => ?_⟩, fun hne => absurd h.symm hne⟩
    simp [deleteComment, hc, isCommentAuthor, h]
  · have hfb : (deleteComment db u tid cid).2 = some ApiError.forbidden := by
      simp [deleteComment, hc, isCommentAuthor, h]
    refine ⟨⟨fun hno => ?_, fun hu => absurd hu.symm h⟩, fun _ => hfb⟩
    rw [hfb] at hno
    exact Option.noConfusion hno

/-- Witness for C6: author 8 deletes comment 9 on task 4; board owner 7 is
forbidden. -/
theorem deleteComment_author_only_witness :
    (deleteComment ⟨[⟨1, "b", 7, [8]⟩], [⟨4, 1, "t", some 8, "", "to-do",
        "medium", none, none⟩], [⟨9, 4, 8, "hi", 0⟩]⟩ 8 4 9).2 = none ∧
    (deleteComment ⟨[⟨1, "b", 7, [8]⟩], [⟨4, 1, "t", some 8, "", "to-do",
        "medium", none, none⟩], [⟨9, 4, 8, "hi", 0⟩]⟩ 7 4 9).2
      = some ApiError.forbidden :=
  ⟨(deleteComment_author_only ⟨[⟨1, "b", 7, [8]⟩], [⟨4, 1, "t", some 8, "",
      "to-do", "medium", none, none⟩], [⟨9, 4, 8, "hi", 0⟩]⟩ 8 4 9
      ⟨9, 4, 8, "hi", 0⟩ rfl).1.mpr rfl,
   (deleteComment_author_only ⟨[⟨1, "b", 7, [8]⟩], [⟨4, 1, "t", some 8, "",
      "to-do", "medium", none, none⟩], [⟨9, 4, 8, "hi", 0⟩]⟩ 7 4 9
      ⟨9, 4, 8, "hi", 0⟩ rfl).2 (by decide)⟩

/-- Claim C10: for a task whose creator field is null, the delete-task
permission grants access exactly to the board's owner — the creator branch
compares null with the actor and is false for every actor. -/
theorem null_creator_delete_owner_only (u : Nat) (t : Task) (board : Board)
    (hc : t.creator = none) :
    isTaskCreatorOrBoardOwner u t board = true ↔ u = board.owner := by
  simp [isTaskCreatorOrBoardOwner, hc]
  exact eq_comm

/-- Witness for C10: board owner 5 may delete the creator-less task 4;
the predicate reduces to the trivially true ownership test. -/
theorem null_creator_delete_owner_only_witness :
    isTaskCreatorOrBoardOwner 5
        ⟨4, 1, "t", none, "", "to-do", "medium", none, none⟩
        ⟨1, "b", 5, [6]⟩ = true ↔ (5 : Nat) = 5 :=
  null_creator_delete_owner_only 5
    ⟨4, 1, "t", none, "", "to-do", "medium", none, none⟩
    ⟨1, "b", 5, [6]⟩ rfl

end KanMind
